import Mathlib

/-!
Shallow embedding of the memcached exporter's stats-to-metrics translation
engine (src/main.go) and proofs checking the specification's claims against
it.  Raw stat dumps (`map[string]string` in Go) are modelled as association
lists whose order stands for the runtime's map iteration order; fallible
float parsing is modelled over rationals.
-/

namespace MCX

/-- Association-list model of a Go `map[string]string` of raw stat fields.
The list order models the (runtime-chosen) iteration order of the map. -/
abbrev Fields := List (String × String)

/-- Lookup modelling Go map indexing `stats[key]`: the zero value `""` is
returned when the key is absent. -/
def Fields.lookupStr (s : Fields) (k : String) : String :=
  match s.find? (fun p => p.1 == k) with
  | some p => p.2
  | none => ""

/-- Presence test modelling the Go two-valued lookup `_, ok := u[m]`. -/
def Fields.containsKey (s : Fields) (k : String) : Bool :=
  (s.find? (fun p => p.1 == k)).isSome

/-- Accumulate a list of decimal digits into a natural number. -/
def digitsVal (cs : List Char) : Nat :=
  cs.foldl (fun a c => a * 10 + (c.toNat - 48)) 0

/-- Model of Go `strconv.ParseFloat(s, 64)` restricted to plain decimal
numerals (optional sign, integer part, optional fractional part), which are
the only forms the memcached stats protocol emits.  Returns `none` exactly
when parsing fails (malformed or empty input). -/
def parseFloat? (s : String) : Option ℚ :=
  let core : List Char → Option ℚ := fun cs =>
    let intPart := cs.takeWhile Char.isDigit
    let rest := cs.dropWhile Char.isDigit
    match rest with
    | [] =>
      if intPart.isEmpty then none else some ((digitsVal intPart : ℚ))
    | '.' :: frac =>
      if intPart.isEmpty && frac.isEmpty then none
      else if frac.all Char.isDigit then
        some ((digitsVal intPart : ℚ) + (digitsVal frac : ℚ) / ((10 : ℚ) ^ frac.length))
      else none
    | _ => none
  match s.data with
  | [] => none
  | '-' :: cs => (core cs).map Neg.neg
  | '+' :: cs => core cs
  | cs => core cs

/-- Value of one observation: a finite numeric value or the IEEE-754 NaN
sentinel meaning "could not be determined". -/
inductive Val where
  | num (q : ℚ)
  | nan
deriving DecidableEq, Repr

/-- Model of `parse` (src/main.go lines 645-652): look up `key` in `stats`,
returning the parsed float or the NaN sentinel on a parse failure. -/
def parse (stats : Fields) (key : String) : Val :=
  match parseFloat? (Fields.lookupStr stats key) with
  | some q => .num q
  | none => .nan

/-- Model of `parseBool` (src/main.go lines 654-664): `"yes"` maps to 1,
`"no"` to 0, anything else (including absence) to the NaN sentinel. -/
def parseBool (stats : Fields) (key : String) : Val :=
  match Fields.lookupStr stats key with
  | "yes" => .num 1
  | "no" => .num 0
  | _ => .nan

/-- Model of `sum` (src/main.go lines 666-676): left fold adding the parsed
value of each key, aborting with `none` at the first parse failure (the Go
version returns `(NaN, err)` there, and callers only use the value when the
error is nil). -/
def sumFields (stats : Fields) (acc : ℚ) : List String → Option ℚ
  | [] => some acc
  | k :: ks =>
    match parseFloat? (Fields.lookupStr stats k) with
    | none => none
    | some v => sumFields stats (acc + v) ks

/-- Top-level namespace constant (src/main.go line 34, `namespace`;
renamed because `namespace` is a Lean keyword). -/
def namespaceConst : String := "memcached"

/-- Subsystem constant (src/main.go line 35). -/
def subsystemLruCrawler : String := "lru_crawler"

/-- Subsystem constant (src/main.go line 36). -/
def subsystemSlab : String := "slab"

/-- Model of `prometheus.BuildFQName`: joins the nonempty components of the
(namespace, subsystem, name) triple with `_`; an empty metric name yields
the empty string. -/
def BuildFQName (ns sub nm : String) : String :=
  if nm = "" then ""
  else if ns ≠ "" ∧ sub ≠ "" then ns ++ "_" ++ sub ++ "_" ++ nm
  else if ns ≠ "" then ns ++ "_" ++ nm
  else if sub ≠ "" then sub ++ "_" ++ nm
  else nm

/-- Metric catalog entry: the (namespace, subsystem, name) triple passed to
`prometheus.BuildFQName` in `NewExporter`, plus the declared label names. -/
structure CatalogEntry where
  ns : String
  sub : String
  name : String
  labels : List String
deriving DecidableEq, Repr

/-- Fully qualified metric name of a catalog entry. -/
def CatalogEntry.fqName (d : CatalogEntry) : String :=
  BuildFQName d.ns d.sub d.name

/-- Catalog entry `up` (src/main.go lines 106-111). -/
def up : CatalogEntry := ⟨namespaceConst, "", "up", []⟩

/-- Catalog entry `uptime` (lines 112-117). -/
def uptime : CatalogEntry := ⟨namespaceConst, "", "uptime_seconds", []⟩

/-- Catalog entry `version` (lines 118-123). -/
def version : CatalogEntry := ⟨namespaceConst, "", "version", ["version"]⟩

/-- Catalog entry `bytesRead` (lines 124-129). -/
def bytesRead : CatalogEntry := ⟨namespaceConst, "", "read_bytes_total", []⟩

/-- Catalog entry `bytesWritten` (lines 130-135). -/
def bytesWritten : CatalogEntry := ⟨namespaceConst, "", "written_bytes_total", []⟩

/-- Catalog entry `currentConnections` (lines 136-141). -/
def currentConnections : CatalogEntry := ⟨namespaceConst, "", "current_connections", []⟩

/-- Catalog entry `maxConnections` (lines 142-147). -/
def maxConnections : CatalogEntry := ⟨namespaceConst, "", "max_connections", []⟩

/-- Catalog entry `connectionsTotal` (lines 148-153). -/
def connectionsTotal : CatalogEntry := ⟨namespaceConst, "", "connections_total", []⟩

/-- Catalog entry `connsYieldedTotal` (lines 154-159). -/
def connsYieldedTotal : CatalogEntry := ⟨namespaceConst, "", "connections_yielded_total", []⟩

/-- Catalog entry `listenerDisabledTotal` (lines 160-165). -/
def listenerDisabledTotal : CatalogEntry :=
  ⟨namespaceConst, "", "connections_listener_disabled_total", []⟩

/-- Catalog entry `currentBytes` (lines 166-171). -/
def currentBytes : CatalogEntry := ⟨namespaceConst, "", "current_bytes", []⟩

/-- Catalog entry `limitBytes` (lines 172-177). -/
def limitBytes : CatalogEntry := ⟨namespaceConst, "", "limit_bytes", []⟩

/-- Catalog entry `commands` (lines 178-183). -/
def commands : CatalogEntry := ⟨namespaceConst, "", "commands_total", ["command", "status"]⟩

/-- Catalog entry `items` (lines 184-189). -/
def items : CatalogEntry := ⟨namespaceConst, "", "current_items", []⟩

/-- Catalog entry `itemsTotal` (lines 190-195). -/
def itemsTotal : CatalogEntry := ⟨namespaceConst, "", "items_total", []⟩

/-- Catalog entry `evictions` (lines 196-201). -/
def evictions : CatalogEntry := ⟨namespaceConst, "", "items_evicted_total", []⟩

/-- Catalog entry `reclaimed` (lines 202-207). -/
def reclaimed : CatalogEntry := ⟨namespaceConst, "", "items_reclaimed_total", []⟩

/-- Catalog entry `lruCrawlerEnabled` (lines 208-213). -/
def lruCrawlerEnabled : CatalogEntry := ⟨namespaceConst, subsystemLruCrawler, "enabled", []⟩

/-- Catalog entry `lruCrawlerSleep` (lines 214-219). -/
def lruCrawlerSleep : CatalogEntry := ⟨namespaceConst, subsystemLruCrawler, "sleep", []⟩

/-- Catalog entry `lruCrawlerMaxItems` (lines 220-225). -/
def lruCrawlerMaxItems : CatalogEntry := ⟨namespaceConst, subsystemLruCrawler, "to_crawl", []⟩

/-- Catalog entry `lruMaintainerThread` (lines 226-231). -/
def lruMaintainerThread : CatalogEntry :=
  ⟨namespaceConst, subsystemLruCrawler, "maintainer_thread", []⟩

/-- Catalog entry `lruHotPercent` (lines 232-237). -/
def lruHotPercent : CatalogEntry := ⟨namespaceConst, subsystemLruCrawler, "hot_percent", []⟩

/-- Catalog entry `lruWarmPercent` (lines 238-243). -/
def lruWarmPercent : CatalogEntry := ⟨namespaceConst, subsystemLruCrawler, "warm_percent", []⟩

/-- Catalog entry `lruHotMaxAgeFactor` (lines 244-249). -/
def lruHotMaxAgeFactor : CatalogEntry :=
  ⟨namespaceConst, subsystemLruCrawler, "hot_max_factor", []⟩

/-- Catalog entry `lruWarmMaxAgeFactor` (lines 250-255). -/
def lruWarmMaxAgeFactor : CatalogEntry :=
  ⟨namespaceConst, subsystemLruCrawler, "warm_max_factor", []⟩

/-- Catalog entry `lruCrawlerStarts` (lines 256-261).  Note that the source
passes the string LITERAL `"namespace"` to `BuildFQName` here, not the
`namespace` constant used by every other entry. -/
def lruCrawlerStarts : CatalogEntry := ⟨"namespace", subsystemLruCrawler, "starts", []⟩

/-- Catalog entry `lruCrawlerReclaimed` (lines 262-267). -/
def lruCrawlerReclaimed : CatalogEntry :=
  ⟨namespaceConst, subsystemLruCrawler, "reclaimed_total", []⟩

/-- Catalog entry `lruCrawlerItemsChecked` (lines 268-273). -/
def lruCrawlerItemsChecked : CatalogEntry :=
  ⟨namespaceConst, subsystemLruCrawler, "items_checked_total", []⟩

/-- Catalog entry `lruCrawlerMovesToCold` (lines 274-279). -/
def lruCrawlerMovesToCold : CatalogEntry :=
  ⟨namespaceConst, subsystemLruCrawler, "moves_to_cold_total", []⟩

/-- Catalog entry `lruCrawlerMovesToWarm` (lines 280-285). -/
def lruCrawlerMovesToWarm : CatalogEntry :=
  ⟨namespaceConst, subsystemLruCrawler, "moves_to_warm_total", []⟩

/-- Catalog entry `lruCrawlerMovesWithinLru` (lines 286-291). -/
def lruCrawlerMovesWithinLru : CatalogEntry :=
  ⟨namespaceConst, subsystemLruCrawler, "moves_within_lru_total", []⟩

/-- Catalog entry `malloced` (lines 292-297). -/
def malloced : CatalogEntry := ⟨namespaceConst, "", "malloced_bytes", []⟩

/-- Catalog entry `itemsNumber` (lines 298-303). -/
def itemsNumber : CatalogEntry := ⟨namespaceConst, subsystemSlab, "current_items", ["slab"]⟩

/-- Catalog entry `itemsAge` (lines 304-309). -/
def itemsAge : CatalogEntry := ⟨namespaceConst, subsystemSlab, "items_age_seconds", ["slab"]⟩

/-- Catalog entry `itemsCrawlerReclaimed` (lines 310-315). -/
def itemsCrawlerReclaimed : CatalogEntry :=
  ⟨namespaceConst, subsystemSlab, "items_crawler_reclaimed_total", ["slab"]⟩

/-- Catalog entry `itemsEvicted` (lines 316-321). -/
def itemsEvicted : CatalogEntry :=
  ⟨namespaceConst, subsystemSlab, "items_evicted_total", ["slab"]⟩

/-- Catalog entry `itemsEvictedNonzero` (lines 322-327). -/
def itemsEvictedNonzero : CatalogEntry :=
  ⟨namespaceConst, subsystemSlab, "items_evicted_nonzero_total", ["slab"]⟩

/-- Catalog entry `itemsEvictedTime` (lines 328-333). -/
def itemsEvictedTime : CatalogEntry :=
  ⟨namespaceConst, subsystemSlab, "items_evicted_time_seconds", ["slab"]⟩

/-- Catalog entry `itemsEvictedUnfetched` (lines 334-339). -/
def itemsEvictedUnfetched : CatalogEntry :=
  ⟨namespaceConst, subsystemSlab, "items_evicted_unfetched_total", ["slab"]⟩

/-- Catalog entry `itemsExpiredUnfetched` (lines 340-345). -/
def itemsExpiredUnfetched : CatalogEntry :=
  ⟨namespaceConst, subsystemSlab, "items_expired_unfetched_total", ["slab"]⟩

/-- Catalog entry `itemsOutofmemory` (lines 346-351). -/
def itemsOutofmemory : CatalogEntry :=
  ⟨namespaceConst, subsystemSlab, "items_outofmemory_total", ["slab"]⟩

/-- Catalog entry `itemsReclaimed` (lines 352-357). -/
def itemsReclaimed : CatalogEntry :=
  ⟨namespaceConst, subsystemSlab, "items_reclaimed_total", ["slab"]⟩

/-- Catalog entry `itemsTailrepairs` (lines 358-363). -/
def itemsTailrepairs : CatalogEntry :=
  ⟨namespaceConst, subsystemSlab, "items_tailrepairs_total", ["slab"]⟩

/-- Catalog entry `itemsMovesToCold` (lines 364-369). -/
def itemsMovesToCold : CatalogEntry :=
  ⟨namespaceConst, subsystemSlab, "items_moves_to_cold", ["slab"]⟩

/-- Catalog entry `itemsMovesToWarm` (lines 370-375). -/
def itemsMovesToWarm : CatalogEntry :=
  ⟨namespaceConst, subsystemSlab, "items_moves_to_warm", ["slab"]⟩

/-- Catalog entry `itemsMovesWithinLru` (lines 376-381). -/
def itemsMovesWithinLru : CatalogEntry :=
  ⟨namespaceConst, subsystemSlab, "items_moves_within_lru", ["slab"]⟩

/-- Catalog entry `slabsChunkSize` (lines 382-387). -/
def slabsChunkSize : CatalogEntry :=
  ⟨namespaceConst, subsystemSlab, "chunk_size_bytes", ["slab"]⟩

/-- Catalog entry `slabsChunksPerPage` (lines 388-393). -/
def slabsChunksPerPage : CatalogEntry :=
  ⟨namespaceConst, subsystemSlab, "chunks_per_page", ["slab"]⟩

/-- Catalog entry `slabsCurrentPages` (lines 394-399). -/
def slabsCurrentPages : CatalogEntry :=
  ⟨namespaceConst, subsystemSlab, "current_pages", ["slab"]⟩

/-- Catalog entry `slabsCurrentChunks` (lines 400-405). -/
def slabsCurrentChunks : CatalogEntry :=
  ⟨namespaceConst, subsystemSlab, "current_chunks", ["slab"]⟩

/-- Catalog entry `slabsChunksUsed` (lines 406-411). -/
def slabsChunksUsed : CatalogEntry := ⟨namespaceConst, subsystemSlab, "chunks_used", ["slab"]⟩

/-- Catalog entry `slabsChunksFree` (lines 412-417). -/
def slabsChunksFree : CatalogEntry := ⟨namespaceConst, subsystemSlab, "chunks_free", ["slab"]⟩

/-- Catalog entry `slabsChunksFreeEnd` (lines 418-423). -/
def slabsChunksFreeEnd : CatalogEntry :=
  ⟨namespaceConst, subsystemSlab, "chunks_free_end", ["slab"]⟩

/-- Catalog entry `slabsMemRequested` (lines 424-429). -/
def slabsMemRequested : CatalogEntry :=
  ⟨namespaceConst, subsystemSlab, "mem_requested_bytes", ["slab"]⟩

/-- Catalog entry `slabsCommands` (lines 430-435). -/
def slabsCommands : CatalogEntry :=
  ⟨namespaceConst, subsystemSlab, "commands_total", ["slab", "command", "status"]⟩

/-- Full metric catalog: every `prometheus.Desc` constructed by
`NewExporter` (src/main.go lines 102-437), in source order. -/
def metricCatalog : List CatalogEntry :=
  [up, uptime, version, bytesRead, bytesWritten, currentConnections, maxConnections,
   connectionsTotal, connsYieldedTotal, listenerDisabledTotal, currentBytes, limitBytes,
   commands, items, itemsTotal, evictions, reclaimed, lruCrawlerEnabled, lruCrawlerSleep,
   lruCrawlerMaxItems, lruMaintainerThread, lruHotPercent, lruWarmPercent,
   lruHotMaxAgeFactor, lruWarmMaxAgeFactor, lruCrawlerStarts, lruCrawlerReclaimed,
   lruCrawlerItemsChecked, lruCrawlerMovesToCold, lruCrawlerMovesToWarm,
   lruCrawlerMovesWithinLru, malloced, itemsNumber, itemsAge, itemsCrawlerReclaimed,
   itemsEvicted, itemsEvictedNonzero, itemsEvictedTime, itemsEvictedUnfetched,
   itemsExpiredUnfetched, itemsOutofmemory, itemsReclaimed, itemsTailrepairs,
   itemsMovesToCold, itemsMovesToWarm, itemsMovesWithinLru, slabsChunkSize,
   slabsChunksPerPage, slabsCurrentPages, slabsCurrentChunks, slabsChunksUsed,
   slabsChunksFree, slabsChunksFreeEnd, slabsMemRequested, slabsCommands]

/-- Observation emitted to the sink: a catalog entry, a numeric value and
the ordered label values (the arguments of `MustNewConstMetric`). -/
structure Observation where
  metric : CatalogEntry
  value : Val
  labelValues : List String
deriving DecidableEq, Repr

/-- Per-server raw stats record returned by the provider (`t` in the
`Collect` loop): the global fields, the per-slab item-stats mapping and the
per-slab allocator-stats mapping.  The Go `map[int]map[string]string`
mappings are modelled as association lists whose order stands for the map
iteration order the runtime chooses. -/
structure ServerStat where
  Stats : Fields
  Items : List (Nat × Fields)
  Slabs : List (Nat × Fields)

/-- Command verbs of the fixed loop (src/main.go lines 540 and 600). -/
def commandOps : List String := ["get", "delete", "incr", "decr", "cas", "touch"]

/-- Derived global set/hit value (src/main.go lines 547-558): parse
`cmd_set`; on success subtract the sum of `cas_misses + cas_hits +
cas_badval`; any parse failure yields the NaN sentinel with no
subtraction attempted. -/
def deriveSet (s : Fields) : Val :=
  match parseFloat? (Fields.lookupStr s "cmd_set") with
  | none => .nan
  | some setCmd =>
    match sumFields s 0 ["cas_misses", "cas_hits", "cas_badval"] with
    | none => .nan
    | some cas => .num (setCmd - cas)

/-- Derived slab-scoped set/hit value (src/main.go lines 605-614): same as
`deriveSet` but the summand list is only `cas_hits + cas_badval`. -/
def deriveSlabSet (v : Fields) : Val :=
  match parseFloat? (Fields.lookupStr v "cmd_set") with
  | none => .nan
  | some setCmd =>
    match sumFields v 0 ["cas_hits", "cas_badval"] with
    | none => .nan
    | some cas => .num (setCmd - cas)

/-- Global command observations (src/main.go lines 540-558): hit and miss
per verb, then cas/badval, flush/hit and the derived set/hit. -/
def globalCommandObs (s : Fields) : List Observation :=
  (commandOps.flatMap fun op =>
    [⟨commands, parse s (op ++ "_hits"), [op, "hit"]⟩,
     ⟨commands, parse s (op ++ "_misses"), [op, "miss"]⟩])
  ++ [⟨commands, parse s "cas_badval", ["cas", "badval"]⟩,
      ⟨commands, parse s "cmd_flush", ["flush", "hit"]⟩,
      ⟨commands, deriveSet s, ["set", "hit"]⟩]

/-- Optional per-slab item counters (the `itemsMetrics` map literal,
src/main.go lines 520-533), in source literal order; the runtime iterates
the Go map in an unspecified order, which only permutes the per-slab
segment. -/
def itemsMetricsList : List (String × CatalogEntry) :=
  [("crawler_reclaimed", itemsCrawlerReclaimed),
   ("evicted", itemsEvicted),
   ("evicted_nonzero", itemsEvictedNonzero),
   ("evicted_time", itemsEvictedTime),
   ("evicted_unfetched", itemsEvictedUnfetched),
   ("expired_unfetched", itemsExpiredUnfetched),
   ("outofmemory", itemsOutofmemory),
   ("reclaimed", itemsReclaimed),
   ("tailrepairs", itemsTailrepairs),
   ("moves_to_cold", itemsMovesToCold),
   ("moves_to_warm", itemsMovesToWarm),
   ("moves_within_lru", itemsMovesWithinLru)]

/-- Observations of one slab class of the item-stats mapping (src/main.go
lines 585-595): the number and age gauges unconditionally, then each
optional counter only when its raw key is present. -/
def itemSlabObs (p : Nat × Fields) : List Observation :=
  let slab := toString p.1
  let u := p.2
  [⟨itemsNumber, parse u "number", [slab]⟩,
   ⟨itemsAge, parse u "age", [slab]⟩]
  ++ itemsMetricsList.flatMap fun md =>
      if Fields.containsKey u md.1 then [⟨md.2, parse u md.1, [slab]⟩] else []

/-- Observations of one slab class of the allocator-stats mapping
(src/main.go lines 597-625): the hit observation per verb, cas/badval, the
derived set/hit, then the eight allocator gauges. -/
def slabObs (p : Nat × Fields) : List Observation :=
  let slab := toString p.1
  let v := p.2
  (commandOps.flatMap fun op =>
    [⟨slabsCommands, parse v (op ++ "_hits"), [slab, op, "hit"]⟩])
  ++ [⟨slabsCommands, parse v "cas_badval", [slab, "cas", "badval"]⟩,
      ⟨slabsCommands, deriveSlabSet v, [slab, "set", "hit"]⟩,
      ⟨slabsChunkSize, parse v "chunk_size", [slab]⟩,
      ⟨slabsChunksPerPage, parse v "chunks_per_page", [slab]⟩,
      ⟨slabsCurrentPages, parse v "total_pages", [slab]⟩,
      ⟨slabsCurrentChunks, parse v "total_chunks", [slab]⟩,
      ⟨slabsChunksUsed, parse v "used_chunks", [slab]⟩,
      ⟨slabsChunksFree, parse v "free_chunks", [slab]⟩,
      ⟨slabsChunksFreeEnd, parse v "free_chunks_end", [slab]⟩,
      ⟨slabsMemRequested, parse v "mem_requested", [slab]⟩]

/-- Observations of one server record (the body of the `for _, t := range
stats` loop, src/main.go lines 535-626). -/
def serverObs (t : ServerStat) : List Observation :=
  let s := t.Stats
  [⟨uptime, parse s "uptime", []⟩,
   ⟨version, .num 1, [Fields.lookupStr s "version"]⟩]
  ++ globalCommandObs s
  ++ [⟨currentBytes, parse s "bytes", []⟩,
      ⟨limitBytes, parse s "limit_maxbytes", []⟩,
      ⟨items, parse s "curr_items", []⟩,
      ⟨itemsTotal, parse s "total_items", []⟩,
      ⟨bytesRead, parse s "bytes_read", []⟩,
      ⟨bytesWritten, parse s "bytes_written", []⟩,
      ⟨currentConnections, parse s "curr_connections", []⟩,
      ⟨connectionsTotal, parse s "total_connections", []⟩,
      ⟨connsYieldedTotal, parse s "conn_yields", []⟩,
      ⟨listenerDisabledTotal, parse s "listen_disabled_num", []⟩,
      ⟨evictions, parse s "evictions", []⟩,
      ⟨reclaimed, parse s "reclaimed", []⟩,
      ⟨lruCrawlerStarts, parse s "lru_crawler_starts", []⟩,
      ⟨lruCrawlerItemsChecked, parse s "crawler_items_checked", []⟩,
      ⟨lruCrawlerReclaimed, parse s "crawler_reclaimed", []⟩,
      ⟨lruCrawlerMovesToCold, parse s "moves_to_cold", []⟩,
      ⟨lruCrawlerMovesToWarm, parse s "moves_to_warm", []⟩,
      ⟨lruCrawlerMovesWithinLru, parse s "moves_within_lru", []⟩,
      ⟨malloced, parse s "total_malloced", []⟩]
  ++ t.Items.flatMap itemSlabObs
  ++ t.Slabs.flatMap slabObs

/-- Settings observations of one settings record (the `for _, settings :=
range statsSettings` loop body, src/main.go lines 632-642). -/
def settingsObs (settings : Fields) : List Observation :=
  [⟨maxConnections, parse settings "maxconns", []⟩,
   ⟨lruCrawlerEnabled, parseBool settings "lru_crawler", []⟩,
   ⟨lruCrawlerSleep, parse settings "lru_crawler_sleep", []⟩,
   ⟨lruCrawlerMaxItems, parse settings "lru_crawler_tocrawl", []⟩,
   ⟨lruMaintainerThread, parseBool settings "lru_maintainer_thread", []⟩,
   ⟨lruHotPercent, parse settings "hot_lru_pct", []⟩,
   ⟨lruWarmPercent, parse settings "warm_lru_pct", []⟩,
   ⟨lruHotMaxAgeFactor, parse settings "hot_max_factor", []⟩,
   ⟨lruWarmMaxAgeFactor, parse settings "warm_max_factor", []⟩]

/-- Outcome of one external fetch: failure (the Go call returned a non-nil
error, with the nil zero value for the data) or success with data. -/
inductive Fetch (α : Type) where
  | fail
  | ok (val : α)

/-- Model of `Collect` (src/main.go lines 502-643): a connection or stats
failure short-circuits to the single up=0 observation; otherwise up=1 and
the per-record stats observations are emitted, and the settings loop runs
over the settings records (none when the settings fetch failed, since the
returned collection is nil on error). -/
def Collect (conn : Fetch Unit) (stats : Fetch (List ServerStat))
    (settings : Fetch (List Fields)) : List Observation :=
  match conn with
  | .fail => [⟨up, .num 0, []⟩]
  | .ok _ =>
    match stats with
    | .fail => [⟨up, .num 0, []⟩]
    | .ok sts =>
      [⟨up, .num 1, []⟩] ++ sts.flatMap serverObs
        ++ (match settings with
            | .fail => []
            | .ok ls => ls.flatMap settingsObs)

/-- Catalog entries whose observations come only from the settings loop
(src/main.go lines 632-642): the settings-derived part of the catalog. -/
def settingsCatalog : List CatalogEntry :=
  [maxConnections, lruCrawlerEnabled, lruCrawlerSleep, lruCrawlerMaxItems,
   lruMaintainerThread, lruHotPercent, lruWarmPercent, lruHotMaxAgeFactor,
   lruWarmMaxAgeFactor]

/-- Predicate selecting observations that are NOT settings-derived. -/
def notSettingsMetric (o : Observation) : Bool :=
  !(settingsCatalog.contains o.metric)

/-- Two server records denote the same raw snapshot when their global
fields agree and their per-slab mappings hold the same key/value pairs,
possibly listed in a different (runtime-chosen) iteration order. -/
def SnapEquiv (t t' : ServerStat) : Prop :=
  t.Stats = t'.Stats ∧ t.Items.Perm t'.Items ∧ t.Slabs.Perm t'.Slabs

/-- Concrete snapshot with two item slab classes, listed as 1 then 2. -/
def snapA : ServerStat := ⟨[], [(1, []), (2, [])], []⟩

/-- The same snapshot as `snapA` with the runtime iterating the item-stats
map in the opposite order. -/
def snapB : ServerStat := ⟨[], [(2, []), (1, [])], []⟩

/-! Helper lemmas shared by the claim theorems. -/

/-- Boolean `all` distributes over `flatMap`. -/
lemma all_flatMap_eq {α β : Type} (l : List α) (f : α → List β) (p : β → Bool) :
    (l.flatMap f).all p = l.all fun a => (f a).all p := by
  induction l with
  | nil => rfl
  | cons x xs ih => simp [List.flatMap_cons, List.all_append, ih]

/-- Boolean `all` over a conditionally emitted singleton. -/
lemma all_if_singleton {α : Type} (c : Prop) [Decidable c] (x : α) (p : α → Bool)
    (h : p x = true) : (if c then [x] else []).all p = true := by
  split <;> simp [h]

/-- Filter of a conditionally emitted singleton. -/
lemma filter_if_singleton {α : Type} (c : Prop) [Decidable c] (x : α) (p : α → Bool) :
    (if c then [x] else []).filter p = if c then [x].filter p else [] := by
  split <;> rfl

/-- Characterisation of `sumFields` failure: the left fold aborts exactly
when some listed key is missing or unparsable. -/
lemma sumFields_eq_none_iff (stats : Fields) (acc : ℚ) (ks : List String) :
    sumFields stats acc ks = none
      ↔ ∃ k ∈ ks, parseFloat? (Fields.lookupStr stats k) = none := by
  induction ks generalizing acc with
  | nil => simp [sumFields]
  | cons k ks ih =>
    cases h : parseFloat? (Fields.lookupStr stats k) with
    | none => simp [sumFields, h]
    | some q => simp [sumFields, h, ih]

/-- Value of `sumFields` when every listed key parses. -/
lemma sumFields_cons_some (stats : Fields) (acc q : ℚ) (k : String) (ks : List String)
    (h : parseFloat? (Fields.lookupStr stats k) = some q) :
    sumFields stats acc (k :: ks) = sumFields stats (acc + q) ks := by
  simp [sumFields, h]

/-- Value of the global derivation when all four raw fields parse. -/
lemma deriveSet_eq_of_parses (s : Fields) (a b c d : ℚ)
    (h1 : parseFloat? (Fields.lookupStr s "cmd_set") = some a)
    (h2 : parseFloat? (Fields.lookupStr s "cas_misses") = some b)
    (h3 : parseFloat? (Fields.lookupStr s "cas_hits") = some c)
    (h4 : parseFloat? (Fields.lookupStr s "cas_badval") = some d) :
    deriveSet s = .num (a - (b + c + d)) := by
  have hsum : sumFields s 0 ["cas_misses", "cas_hits", "cas_badval"] = some (b + c + d) := by
    simp [sumFields, h2, h3, h4]
  simp [deriveSet, h1, hsum]

/-- Value of the slab-scoped derivation when all three raw fields parse. -/
lemma deriveSlabSet_eq_of_parses (v : Fields) (e f g : ℚ)
    (h5 : parseFloat? (Fields.lookupStr v "cmd_set") = some e)
    (h6 : parseFloat? (Fields.lookupStr v "cas_hits") = some f)
    (h7 : parseFloat? (Fields.lookupStr v "cas_badval") = some g) :
    deriveSlabSet v = .num (e - (f + g)) := by
  have hsum : sumFields v 0 ["cas_hits", "cas_badval"] = some (f + g) := by
    simp [sumFields, h6, h7]
  simp [deriveSlabSet, h5, hsum]

/-- Observations of one item-stats slab class are never settings-derived. -/
lemma itemSlabObs_all_notSettings (p : Nat × Fields) :
    (itemSlabObs p).all notSettingsMetric = true := by
  simp only [itemSlabObs, List.all_append, Bool.and_eq_true, all_flatMap_eq]
  refine ⟨rfl, ?_⟩
  simp only [itemsMetricsList, List.all_cons, List.all_nil, Bool.and_eq_true]
  refine ⟨?_, ?_, ?_, ?_, ?_, ?_, ?_, ?_, ?_, ?_, ?_, ?_, trivial⟩ <;>
    exact all_if_singleton _ _ _ rfl

/-- Observations of one allocator-stats slab class are never
settings-derived. -/
lemma slabObs_all_notSettings (p : Nat × Fields) :
    (slabObs p).all notSettingsMetric = true := rfl

/-- Observations of one server record are never settings-derived. -/
lemma serverObs_all_notSettings (t : ServerStat) :
    (serverObs t).all notSettingsMetric = true := by
  simp only [serverObs, List.all_append, Bool.and_eq_true, all_flatMap_eq]
  refine ⟨⟨⟨⟨rfl, rfl⟩, rfl⟩, ?_⟩, ?_⟩
  · exact List.all_eq_true.mpr fun p _ => itemSlabObs_all_notSettings p
  · exact List.all_eq_true.mpr fun p _ => slabObs_all_notSettings p

/-- Every observation of one item-stats slab class carries that slab's id
as its first (and only) label. -/
lemma itemSlabObs_label_head (p : Nat × Fields) (o : Observation)
    (ho : o ∈ itemSlabObs p) : o.labelValues.head? = some (toString p.1) := by
  have hall : (itemSlabObs p).all
      (fun o => o.labelValues.head? == some (toString p.1)) = true := by
    simp only [itemSlabObs, List.all_append, Bool.and_eq_true, all_flatMap_eq]
    refine ⟨by simp, ?_⟩
    simp only [itemsMetricsList, List.all_cons, List.all_nil, Bool.and_eq_true]
    refine ⟨?_, ?_, ?_, ?_, ?_, ?_, ?_, ?_, ?_, ?_, ?_, ?_, trivial⟩ <;>
      exact all_if_singleton _ _ _ (by simp)
  simpa using List.all_eq_true.mp hall o ho

/-- Every observation of one allocator-stats slab class carries that slab's
id as its first label. -/
lemma slabObs_label_head (p : Nat × Fields) (o : Observation)
    (ho : o ∈ slabObs p) : o.labelValues.head? = some (toString p.1) := by
  have hall : (slabObs p).all
      (fun o => o.labelValues.head? == some (toString p.1)) = true := by
    simp [slabObs, commandOps]
  simpa using List.all_eq_true.mp hall o ho

/-- Filtering the optional per-slab segment for a metric that appears under
no key of `rest` yields nothing. -/
lemma filter_flatMap_optional_nil (u : Fields) (slab : String)
    (rest : List (String × CatalogEntry)) (d : CatalogEntry)
    (hd : d ∉ rest.map Prod.snd) :
    ((rest.flatMap fun md =>
        if Fields.containsKey u md.1 then [(⟨md.2, parse u md.1, [slab]⟩ : Observation)]
        else []).filter
      fun o => decide (o.metric = d)) = [] := by
  rw [List.filter_eq_nil_iff]
  intro o ho
  obtain ⟨md, hmd, ho⟩ := List.mem_flatMap.mp ho
  by_cases hc : Fields.containsKey u md.1
  · rw [if_pos hc, List.mem_singleton] at ho
    subst ho
    simp only [decide_eq_true_eq]
    intro hEq
    exact hd (hEq ▸ List.mem_map_of_mem Prod.snd hmd)
  · rw [if_neg hc] at ho
    cases ho

/-- Filtering the optional per-slab segment for the metric registered under
key `k` yields exactly the observation for `k` when `k` is present and
nothing when it is absent, provided the metric appears under no other key. -/
lemma filter_flatMap_optional (u : Fields) (slab : String)
    (L : List (String × CatalogEntry)) (d : CatalogEntry) (k : String)
    (hk : (k, d) ∈ L) (hnd : (L.map Prod.snd).Nodup) :
    ((L.flatMap fun md =>
        if Fields.containsKey u md.1 then [(⟨md.2, parse u md.1, [slab]⟩ : Observation)]
        else []).filter
      fun o => decide (o.metric = d))
      = if Fields.containsKey u k then [⟨d, parse u k, [slab]⟩] else [] := by
  induction L with
  | nil => cases hk
  | cons md rest ih =>
    rw [List.map_cons, List.nodup_cons] at hnd
    obtain ⟨hhd, hnd'⟩ := hnd
    rcases List.mem_cons.mp hk with heq | hmem
    · subst heq
      simp only [List.flatMap_cons, List.filter_append, filter_if_singleton]
      rw [filter_flatMap_optional_nil u slab rest d hhd]
      simp
    · have hne : md.2 ≠ d := by
        intro hEq
        exact hhd (hEq ▸ List.mem_map_of_mem Prod.snd hmem)
      simp only [List.flatMap_cons, List.filter_append, filter_if_singleton]
      rw [ih hmem hnd']
      simp [List.filter_cons, hne]

/-! Claim theorems. -/

/-- C7: for every fields mapping and key, `parse` returns the parsed value
when the key maps to a valid decimal numeral and the NaN sentinel when the
key is absent or malformed (it is a total function, so it never raises);
`parseBool` returns 1 for `"yes"`, 0 for `"no"`, and the NaN sentinel for
every other value including absence (absence reads as `""`). -/
theorem C7_scalar_parse_contract (s : Fields) (k : String) :
    (∀ q : ℚ, parseFloat? (Fields.lookupStr s k) = some q → parse s k = .num q)
    ∧ (parseFloat? (Fields.lookupStr s k) = none → parse s k = .nan)
    ∧ (Fields.lookupStr s k = "yes" → parseBool s k = .num 1)
    ∧ (Fields.lookupStr s k = "no" → parseBool s k = .num 0)
    ∧ (Fields.lookupStr s k ≠ "yes" → Fields.lookupStr s k ≠ "no" →
        parseBool s k = .nan) := by
  refine ⟨fun q hq => ?_, fun hn => ?_, fun hy => ?_, fun hn => ?_, fun hy hn => ?_⟩
  · simp [parse, hq]
  · simp [parse, hn]
  · simp [parseBool, hy]
  · simp [parseBool, hn]
  · unfold parseBool
    split
    · simp_all
    · simp_all
    · rfl

/-- C7 witness: concrete instances of each branch of the parser contract. -/
theorem C7_scalar_parse_contract_witness :
    parse [("x", "7")] "x" = .num 7
    ∧ parse [("x", "abc")] "x" = .nan
    ∧ parse [] "x" = .nan
    ∧ parseBool [("b", "yes")] "b" = .num 1
    ∧ parseBool [("b", "no")] "b" = .num 0
    ∧ parseBool [("b", "1")] "b" = .nan :=
  ⟨(C7_scalar_parse_contract [("x", "7")] "x").1 7 rfl,
   (C7_scalar_parse_contract [("x", "abc")] "x").2.1 rfl,
   (C7_scalar_parse_contract [] "x").2.1 rfl,
   (C7_scalar_parse_contract [("b", "yes")] "b").2.2.1 rfl,
   (C7_scalar_parse_contract [("b", "no")] "b").2.2.2.1 rfl,
   (C7_scalar_parse_contract [("b", "1")] "b").2.2.2.2 (by decide) (by decide)⟩

/-- C2: when the required raw fields parse, the derived global set/hit
value equals `cmd_set - (cas_misses + cas_hits + cas_badval)` and the
slab-scoped one equals `cmd_set - (cas_hits + cas_badval)` (omitting
`cas_misses`); both are the values emitted for the set/hit observations,
and the spec's concrete example yields 90. -/
theorem C2_derived_set (s v : Fields) (a b c d e f g : ℚ)
    (h1 : parseFloat? (Fields.lookupStr s "cmd_set") = some a)
    (h2 : parseFloat? (Fields.lookupStr s "cas_misses") = some b)
    (h3 : parseFloat? (Fields.lookupStr s "cas_hits") = some c)
    (h4 : parseFloat? (Fields.lookupStr s "cas_badval") = some d)
    (h5 : parseFloat? (Fields.lookupStr v "cmd_set") = some e)
    (h6 : parseFloat? (Fields.lookupStr v "cas_hits") = some f)
    (h7 : parseFloat? (Fields.lookupStr v "cas_badval") = some g) :
    deriveSet s = .num (a - (b + c + d))
    ∧ Observation.mk commands (deriveSet s) ["set", "hit"] ∈ globalCommandObs s
    ∧ deriveSlabSet v = .num (e - (f + g))
    ∧ (∀ i : Nat,
        Observation.mk slabsCommands (deriveSlabSet v) [toString i, "set", "hit"]
          ∈ slabObs (i, v))
    ∧ deriveSet [("cmd_set", "100"), ("cas_misses", "5"), ("cas_hits", "3"),
        ("cas_badval", "2")] = .num 90 := by
  refine ⟨deriveSet_eq_of_parses s a b c d h1 h2 h3 h4, ?_,
    deriveSlabSet_eq_of_parses v e f g h5 h6 h7, fun i => ?_, ?_⟩
  · simp [globalCommandObs]
  · simp [slabObs]
  · have h : deriveSet [("cmd_set", "100"), ("cas_misses", "5"), ("cas_hits", "3"),
        ("cas_badval", "2")] = .num ((100 : ℚ) - (0 + 5 + 3 + 2)) := rfl
    rw [h]
    norm_num

/-- C2 witness: the theorem applied to the spec's concrete global fields
and a concrete slab mapping with cmd_set 10, cas_hits 3, cas_badval 2. -/
theorem C2_derived_set_witness :
    deriveSet [("cmd_set", "100"), ("cas_misses", "5"), ("cas_hits", "3"),
      ("cas_badval", "2")] = .num ((100 : ℚ) - (5 + 3 + 2))
    ∧ deriveSlabSet [("cmd_set", "10"), ("cas_hits", "3"), ("cas_badval", "2")]
        = .num ((10 : ℚ) - (3 + 2)) :=
  ⟨(C2_derived_set [("cmd_set", "100"), ("cas_misses", "5"), ("cas_hits", "3"),
      ("cas_badval", "2")] [("cmd_set", "10"), ("cas_hits", "3"), ("cas_badval", "2")]
      100 5 3 2 10 3 2 rfl rfl rfl rfl rfl rfl rfl).1,
   (C2_derived_set [("cmd_set", "100"), ("cas_misses", "5"), ("cas_hits", "3"),
      ("cas_badval", "2")] [("cmd_set", "10"), ("cas_hits", "3"), ("cas_badval", "2")]
      100 5 3 2 10 3 2 rfl rfl rfl rfl rfl rfl rfl).2.2.1⟩

/-- C3: if `cmd_set` is missing or unparsable, or some required cas summand
of the scope is, the scope's derived set/hit value is the NaN sentinel
(when `cmd_set` itself fails the summands are never consulted); and each
slab's derived observation is computed from that slab's fields alone, so a
failure in one scope leaves every other scope's derived value unchanged. -/
theorem C3_derivation_fail_soft (s v : Fields)
    (hs : parseFloat? (Fields.lookupStr s "cmd_set") = none
      ∨ ∃ k ∈ ["cas_misses", "cas_hits", "cas_badval"],
          parseFloat? (Fields.lookupStr s k) = none)
    (hv : parseFloat? (Fields.lookupStr v "cmd_set") = none
      ∨ ∃ k ∈ ["cas_hits", "cas_badval"],
          parseFloat? (Fields.lookupStr v k) = none) :
    deriveSet s = .nan
    ∧ deriveSlabSet v = .nan
    ∧ (∀ (i : Nat) (w : Fields) (l : List (Nat × Fields)), (i, w) ∈ l →
        Observation.mk slabsCommands (deriveSlabSet w) [toString i, "set", "hit"]
          ∈ l.flatMap slabObs)
    ∧ (∀ s₂ : Fields, Observation.mk commands (deriveSet s₂) ["set", "hit"]
        ∈ globalCommandObs s₂) := by
  refine ⟨?_, ?_, fun i w l hl => ?_, fun s₂ => ?_⟩
  · rcases hs with h | h
    · simp [deriveSet, h]
    · have hsum : sumFields s 0 ["cas_misses", "cas_hits", "cas_badval"] = none :=
        (sumFields_eq_none_iff s 0 _).mpr h
      cases hp : parseFloat? (Fields.lookupStr s "cmd_set") <;>
        simp [deriveSet, hp, hsum]
  · rcases hv with h | h
    · simp [deriveSlabSet, h]
    · have hsum : sumFields v 0 ["cas_hits", "cas_badval"] = none :=
        (sumFields_eq_none_iff v 0 _).mpr h
      cases hp : parseFloat? (Fields.lookupStr v "cmd_set") <;>
        simp [deriveSlabSet, hp, hsum]
  · exact List.mem_flatMap.mpr ⟨(i, w), hl, by simp [slabObs]⟩
  · simp [globalCommandObs]

/-- C3 witness: the spec's malformed-cmd_set example at global scope and a
missing cas_hits key at slab scope, applied to the theorem. -/
theorem C3_derivation_fail_soft_witness :
    deriveSet [("cmd_set", "abc"), ("cas_misses", "5"), ("cas_hits", "3"),
      ("cas_badval", "2")] = .nan
    ∧ deriveSlabSet [("cmd_set", "10"), ("cas_badval", "2")] = .nan :=
  ⟨(C3_derivation_fail_soft
      [("cmd_set", "abc"), ("cas_misses", "5"), ("cas_hits", "3"), ("cas_badval", "2")]
      [("cmd_set", "10"), ("cas_badval", "2")]
      (Or.inl rfl) (Or.inr ⟨"cas_hits", by decide, rfl⟩)).1,
   (C3_derivation_fail_soft
      [("cmd_set", "abc"), ("cas_misses", "5"), ("cas_hits", "3"), ("cas_badval", "2")]
      [("cmd_set", "10"), ("cas_badval", "2")]
      (Or.inl rfl) (Or.inr ⟨"cas_hits", by decide, rfl⟩)).2.1⟩

/-- C10: when every required field of a scope parses but the cas sum
exceeds cmd_set, the derived set/hit value is the (negative) difference:
it is a finite number, not the NaN sentinel, and is not clamped to zero. -/
theorem C10_negative_derived_set (s v : Fields) (a b c d e f g : ℚ)
    (h1 : parseFloat? (Fields.lookupStr s "cmd_set") = some a)
    (h2 : parseFloat? (Fields.lookupStr s "cas_misses") = some b)
    (h3 : parseFloat? (Fields.lookupStr s "cas_hits") = some c)
    (h4 : parseFloat? (Fields.lookupStr s "cas_badval") = some d)
    (h5 : parseFloat? (Fields.lookupStr v "cmd_set") = some e)
    (h6 : parseFloat? (Fields.lookupStr v "cas_hits") = some f)
    (h7 : parseFloat? (Fields.lookupStr v "cas_badval") = some g)
    (hgl : a < b + c + d) (hsl : e < f + g) :
    (deriveSet s = .num (a - (b + c + d)) ∧ a - (b + c + d) < 0
      ∧ deriveSet s ≠ .nan ∧ deriveSet s ≠ .num 0)
    ∧ (deriveSlabSet v = .num (e - (f + g)) ∧ e - (f + g) < 0
      ∧ deriveSlabSet v ≠ .nan ∧ deriveSlabSet v ≠ .num 0) := by
  have hgs := deriveSet_eq_of_parses s a b c d h1 h2 h3 h4
  have hvs := deriveSlabSet_eq_of_parses v e f g h5 h6 h7
  have hneg1 : a - (b + c + d) < 0 := by linarith
  have hneg2 : e - (f + g) < 0 := by linarith
  refine ⟨⟨hgs, hneg1, by simp [hgs], ?_⟩, ⟨hvs, hneg2, by simp [hvs], ?_⟩⟩
  · rw [hgs]
    intro hEq
    rw [Val.num.injEq] at hEq
    exact absurd hEq (ne_of_lt hneg1)
  · rw [hvs]
    intro hEq
    rw [Val.num.injEq] at hEq
    exact absurd hEq (ne_of_lt hneg2)

/-- C10 witness: cmd_set 1 against a cas sum of 10 at global scope and
cmd_set 1 against a cas sum of 5 at slab scope. -/
theorem C10_negative_derived_set_witness :
    deriveSet [("cmd_set", "1"), ("cas_misses", "5"), ("cas_hits", "3"),
      ("cas_badval", "2")] = .num ((1 : ℚ) - (5 + 3 + 2))
    ∧ deriveSlabSet [("cmd_set", "1"), ("cas_hits", "3"), ("cas_badval", "2")]
        = .num ((1 : ℚ) - (3 + 2)) :=
  ⟨(C10_negative_derived_set
      [("cmd_set", "1"), ("cas_misses", "5"), ("cas_hits", "3"), ("cas_badval", "2")]
      [("cmd_set", "1"), ("cas_hits", "3"), ("cas_badval", "2")]
      1 5 3 2 1 3 2 rfl rfl rfl rfl rfl rfl rfl (by norm_num) (by norm_num)).1.1,
   (C10_negative_derived_set
      [("cmd_set", "1"), ("cas_misses", "5"), ("cas_hits", "3"), ("cas_badval", "2")]
      [("cmd_set", "1"), ("cas_hits", "3"), ("cas_badval", "2")]
      1 5 3 2 1 3 2 rfl rfl rfl rfl rfl rfl rfl (by norm_num) (by norm_num)).2.1⟩

/-- C4: whenever the connection or the stats retrieval fails, the cycle's
output is exactly the single up=0 observation, whatever the other fetch
results would have been; no stats, slab, command or settings observation
is emitted on this path. -/
theorem C4_provider_error_short_circuit (settings : Fetch (List Fields)) :
    (∀ stats : Fetch (List ServerStat),
      Collect .fail stats settings = [Observation.mk up (.num 0) []])
    ∧ Collect (.ok ()) .fail settings = [Observation.mk up (.num 0) []] :=
  ⟨fun _ => rfl, rfl⟩

/-- C5: when stats succeed but the settings fetch fails, the output is
up=1 followed by exactly the stats-derived observations; a successful
settings fetch only appends the settings observations after them, so the
settings failure never changes "up" or removes a stats observation; and no
stats-derived observation carries a settings metric, so the failing cycle
contains zero settings-derived observations. -/
theorem C5_settings_fail_soft (sts : List ServerStat) (ls : List Fields) :
    Collect (.ok ()) (.ok sts) .fail
        = [Observation.mk up (.num 1) []] ++ sts.flatMap serverObs
    ∧ Collect (.ok ()) (.ok sts) (.ok ls)
        = Collect (.ok ()) (.ok sts) .fail ++ ls.flatMap settingsObs
    ∧ (Collect (.ok ()) (.ok sts) .fail).all notSettingsMetric = true := by
  refine ⟨by simp [Collect], by simp [Collect], ?_⟩
  simp only [Collect, List.append_nil, List.all_append, Bool.and_eq_true, all_flatMap_eq]
  exact ⟨rfl, List.all_eq_true.mpr fun t _ => serverObs_all_notSettings t⟩

/-- C6: for every optional per-slab item counter, the slab's segment
contains exactly one observation for that metric — carrying the parsed
value and the slab label — when the raw key is present (even as "0"), and
none at all when the key is absent; and per-slab observations only ever
carry slab ids present in the cycle's raw per-slab mappings. -/
theorem C6_presence_gated_item_counters (i : Nat) (u : Fields) (k : String)
    (d : CatalogEntry) (hk : (k, d) ∈ itemsMetricsList) :
    ((itemSlabObs (i, u)).filter fun o => decide (o.metric = d))
        = (if Fields.containsKey u k
            then [Observation.mk d (parse u k) [toString i]] else [])
    ∧ (Fields.containsKey u k = true →
        Observation.mk d (parse u k) [toString i] ∈ itemSlabObs (i, u))
    ∧ (∀ t : ServerStat, ∀ o ∈ t.Items.flatMap itemSlabObs,
        ∃ p ∈ t.Items, o.labelValues.head? = some (toString p.1))
    ∧ (∀ t : ServerStat, ∀ o ∈ t.Slabs.flatMap slabObs,
        ∃ p ∈ t.Slabs, o.labelValues.head? = some (toString p.1)) := by
  have hgauges : ∀ x ∈ itemsMetricsList.map Prod.snd,
      x ≠ itemsNumber ∧ x ≠ itemsAge := by decide
  obtain ⟨hn1, hn2⟩ := hgauges d (List.mem_map_of_mem Prod.snd hk)
  have hfil : ((itemSlabObs (i, u)).filter fun o => decide (o.metric = d))
      = (if Fields.containsKey u k
          then [Observation.mk d (parse u k) [toString i]] else []) := by
    simp only [itemSlabObs, List.filter_append, List.filter_cons, List.filter_nil,
      decide_eq_true_eq]
    rw [if_neg (Ne.symm hn1), if_neg (Ne.symm hn2), List.nil_append]
    exact filter_flatMap_optional u (toString i) itemsMetricsList d k hk (by decide)
  refine ⟨hfil, fun hc => ?_, fun t o ho => ?_, fun t o ho => ?_⟩
  · have hone : Observation.mk d (parse u k) [toString i]
        ∈ (itemSlabObs (i, u)).filter fun o => decide (o.metric = d) := by
      rw [hfil, if_pos hc]
      exact List.mem_singleton_self _
    exact List.mem_of_mem_filter hone
  · obtain ⟨p, hp, ho'⟩ := List.mem_flatMap.mp ho
    exact ⟨p, hp, itemSlabObs_label_head p o ho'⟩
  · obtain ⟨p, hp, ho'⟩ := List.mem_flatMap.mp ho
    exact ⟨p, hp, slabObs_label_head p o ho'⟩

/-- C6 witness: the spec's `evicted_unfetched` example — present as "0" the
slab's segment holds exactly one such observation with value 0; absent it
holds none. -/
theorem C6_presence_gated_item_counters_witness :
    (("evicted_unfetched", itemsEvictedUnfetched) ∈ itemsMetricsList)
    ∧ ((itemSlabObs (1, [("evicted_unfetched", "0")])).filter
        fun o => decide (o.metric = itemsEvictedUnfetched))
        = [Observation.mk itemsEvictedUnfetched
            (parse [("evicted_unfetched", "0")] "evicted_unfetched") [toString 1]]
    ∧ ((itemSlabObs (1, ([] : Fields))).filter
        fun o => decide (o.metric = itemsEvictedUnfetched)) = []
    ∧ parse [("evicted_unfetched", "0")] "evicted_unfetched" = .num 0 := by
  refine ⟨by decide, ?_, ?_, rfl⟩
  · have h := (C6_presence_gated_item_counters 1 [("evicted_unfetched", "0")]
      "evicted_unfetched" itemsEvictedUnfetched (by decide)).1
    simpa using h
  · have h := (C6_presence_gated_item_counters 1 ([] : Fields)
      "evicted_unfetched" itemsEvictedUnfetched (by decide)).1
    exact h.trans (by rfl)

/-- C1 counterexample: for a snapshot whose allocator-stats mapping holds
slab class 1, the cycle's output contains NO slab commands observation with
status "miss" (here for the verb get), refuting the claimed per-slab
hit-and-miss emission. -/
theorem C1_counterexample :
    ¬ ∃ o ∈ Collect (.ok ()) (.ok [⟨[], [], [(1, [])]⟩]) .fail,
        o.metric = slabsCommands ∧ o.labelValues = ["1", "get", "miss"] := by
  decide

/-- C1 amended: for every slab class of the allocator-stats mapping the
cycle emits one hit observation per verb labeled (slab, command, "hit"),
but no per-slab observation at all has status "miss"; the slab commands
metric carries exactly eight observations per slab (six verb hits,
cas/badval and the derived set/hit), not twelve. -/
theorem C1_slab_hits_only (i : Nat) (v : Fields) :
    (∀ op ∈ commandOps,
      Observation.mk slabsCommands (parse v (op ++ "_hits")) [toString i, op, "hit"]
        ∈ slabObs (i, v))
    ∧ (∀ o ∈ slabObs (i, v), o.labelValues[2]? ≠ some "miss")
    ∧ ((slabObs (i, v)).countP fun o => decide (o.metric = slabsCommands)) = 8 := by
  refine ⟨fun op hop => ?_, fun o ho => ?_, rfl⟩
  · fin_cases hop <;> simp [slabObs, commandOps]
  · have hall : (slabObs (i, v)).all
        (fun o => !(o.labelValues[2]? == some "miss")) = true := rfl
    have := List.all_eq_true.mp hall o ho
    simpa using this

/-- C1 witness: the amended theorem applied to slab class 1 with empty
allocator fields, yielding the get/hit observation. -/
theorem C1_slab_hits_only_witness :
    Observation.mk slabsCommands (parse [] "get_hits") [toString 1, "get", "hit"]
      ∈ slabObs (1, ([] : Fields)) :=
  (C1_slab_hits_only 1 []).1 "get" (by decide)

/-- Permutation of the per-server observations under snapshot equivalence:
equal global fields and permuted per-slab mappings permute the output. -/
lemma serverObs_perm_of_equiv (t t' : ServerStat) (h : SnapEquiv t t') :
    (serverObs t).Perm (serverObs t') := by
  obtain ⟨h1, h2, h3⟩ := h
  cases t with
  | mk s it sl =>
    cases t' with
    | mk s' it' sl' =>
      simp only at h1 h2 h3
      subst h1
      simp only [serverObs]
      exact ((List.Perm.refl _).append (h2.flatMap_right itemSlabObs)).append
        (h3.flatMap_right slabObs)

/-- Pairwise-equivalent server record lists produce permuted outputs. -/
lemma flatMap_serverObs_perm (sts sts' : List ServerStat)
    (h : List.Forall₂ SnapEquiv sts sts') :
    (sts.flatMap serverObs).Perm (sts'.flatMap serverObs) := by
  induction h with
  | nil => exact List.Perm.refl _
  | cons hab _ ih =>
    simp only [List.flatMap_cons]
    exact (serverObs_perm_of_equiv _ _ hab).append ih

/-- C9 counterexample: two representations of the same snapshot (slab
classes 1 and 2, with the runtime iterating the item-stats map in opposite
orders) make the cycle emit different observation sequences, refuting the
claimed fixed deterministic emission order. -/
theorem C9_counterexample :
    SnapEquiv snapA snapB
    ∧ Collect (.ok ()) (.ok [snapA]) .fail ≠ Collect (.ok ()) (.ok [snapB]) .fail := by
  refine ⟨⟨rfl, List.Perm.swap _ _ _, List.Perm.refl _⟩, fun hEq => ?_⟩
  exact absurd (congrArg (List.map fun o => o.labelValues) hEq) (by decide)

/-- C9 amended: over an unchanged snapshot the cycle's output is the same
multiset of observations (identical values, labels and presence/absence)
whatever per-slab map iteration orders the runtime chooses, and since the
engine is a pure function the sequence is identical when the iteration
orders coincide; only the emission order may vary between runs. -/
theorem C9_snapshot_multiset_idempotent (sts sts' : List ServerStat)
    (settings : Fetch (List Fields)) (h : List.Forall₂ SnapEquiv sts sts') :
    (Collect (.ok ()) (.ok sts) settings).Perm
      (Collect (.ok ()) (.ok sts') settings) := by
  simp only [Collect]
  exact ((List.Perm.refl _).append (flatMap_serverObs_perm sts sts' h)).append
    (List.Perm.refl _)

/-- C9 witness: the amended theorem applied to the two concrete
representations of the two-slab snapshot. -/
theorem C9_snapshot_multiset_idempotent_witness :
    List.Forall₂ SnapEquiv [snapA] [snapB]
    ∧ (Collect (.ok ()) (.ok [snapA]) .fail).Perm
        (Collect (.ok ()) (.ok [snapB]) .fail) :=
  ⟨List.Forall₂.cons ⟨rfl, List.Perm.swap _ _ _, List.Perm.refl _⟩ List.Forall₂.nil,
   C9_snapshot_multiset_idempotent [snapA] [snapB] .fail
     (List.Forall₂.cons ⟨rfl, List.Perm.swap _ _ _, List.Perm.refl _⟩ List.Forall₂.nil)⟩

/-- C8: the claim fails on the code — the lruCrawlerStarts catalog entry is
built from the string LITERAL "namespace" (src/main.go line 257), not the
namespace constant "memcached" used by every other entry, so its fully
qualified name is "namespace_lru_crawler_starts" while e.g. up is
"memcached_up"; it is the single entry violating the scheme, which marks
the quoted constant as a slip in the code. -/
theorem C8_namespace_literal_code_bug :
    lruCrawlerStarts.ns = "namespace"
    ∧ lruCrawlerStarts.ns ≠ namespaceConst
    ∧ CatalogEntry.fqName lruCrawlerStarts = "namespace_lru_crawler_starts"
    ∧ CatalogEntry.fqName up = "memcached_up"
    ∧ (metricCatalog.all fun d => decide (d.ns = namespaceConst)) = false
    ∧ (metricCatalog.all fun d =>
        decide (d = lruCrawlerStarts) || decide (d.ns = namespaceConst)) = true := by
  exact ⟨rfl, by decide, by decide, by decide, by decide, by decide⟩

end MCX
